import Mathlib

/-!
Verification of the tool-calling orchestration loop of the
gpt-5-cfg-testing repository.

The repository consists of near-identical demo scripts
(normal_functions.py, todos-test/cfg_functions.py,
price-test/price_compare.py, email-triage-test/email_triage.py,
email-triage-test/cfg_email_triage.py, simple-test/simple_price.py),
each driving the same while-true tool loop: append the model response
output to the message list, dispatch every tool-call item through a
local call_tool function, append one function_call_output per call,
and exit when the message list did not grow.

This file embeds that loop shallowly: the remote model is a function
from the conversation to a response, json.loads / json.dumps are
executable Lean functions over a Json value type, the todos.json file
is explicit list state, and local clock reads are a string parameter.
-/

namespace GptCfg

/-- JSON values, the payloads flowing between the loop and the tools. -/
inductive Json where
  | null : Json
  | bool : Bool → Json
  | num : Int → Json
  | str : String → Json
  | arr : List Json → Json
  | obj : List (String × Json) → Json

/-- Look up a key in a JSON object, as Python d.get(key). -/
def jsonGet (j : Json) (key : String) : Option Json :=
  match j with
  | Json.obj kvs =>
    match kvs.find? (fun kv => kv.1 == key) with
    | some kv => some kv.2
    | none => none
  | _ => none

/-- The opening-brace character, written via its code point. -/
def obraceChar : Char := Char.ofNat 123

/-- The closing-brace character, written via its code point. -/
def cbraceChar : Char := Char.ofNat 125

/-- Drop leading JSON whitespace. -/
def skipWs : List Char → List Char
  | [] => []
  | c :: cs =>
    if c == ' ' || c == '\n' || c == '\t' || c == '\r' then skipWs cs
    else c :: cs

/-- Parse the body of a JSON string after the opening quote, fueled. -/
def parseJStr : Nat → List Char → Option (String × List Char)
  | 0, _ => none
  | _, [] => none
  | fuel + 1, c :: cs =>
    if c == '"' then some ("", cs)
    else if c == '\\' then
      match cs with
      | [] => none
      | e :: cs2 =>
        match parseJStr fuel cs2 with
        | none => none
        | some (s, rest) =>
          let ch := if e == 'n' then '\n' else if e == 't' then '\t' else e
          some (String.mk (ch :: s.data), rest)
    else
      match parseJStr fuel cs with
      | none => none
      | some (s, rest) => some (String.mk (c :: s.data), rest)

/-- Split off a maximal run of decimal digits. -/
def spanDigits : List Char → (List Char × List Char)
  | [] => ([], [])
  | c :: cs =>
    if '0' ≤ c && c ≤ '9' then
      let p := spanDigits cs
      (c :: p.1, p.2)
    else ([], c :: cs)

/-- Decimal digits to a natural number. -/
def digitsToNat (ds : List Char) : Nat :=
  ds.foldl (fun acc c => acc * 10 + (c.toNat - 48)) 0

mutual

/-- Parse one JSON value, fueled recursive descent. -/
def parseValue : Nat → List Char → Option (Json × List Char)
  | 0, _ => none
  | fuel + 1, input =>
    match skipWs input with
    | [] => none
    | c :: cs =>
      if c == 'n' then
        match cs with
        | 'u' :: 'l' :: 'l' :: rest => some (Json.null, rest)
        | _ => none
      else if c == 't' then
        match cs with
        | 'r' :: 'u' :: 'e' :: rest => some (Json.bool true, rest)
        | _ => none
      else if c == 'f' then
        match cs with
        | 'a' :: 'l' :: 's' :: 'e' :: rest => some (Json.bool false, rest)
        | _ => none
      else if c == '"' then
        match parseJStr (fuel + 1) cs with
        | none => none
        | some (s, rest) => some (Json.str s, rest)
      else if c == '[' then
        match skipWs cs with
        | ']' :: rest => some (Json.arr [], rest)
        | cs2 =>
          match parseItems fuel cs2 with
          | none => none
          | some (xs, rest) => some (Json.arr xs, rest)
      else if c == obraceChar then
        match skipWs cs with
        | [] => none
        | c2 :: rest =>
          if c2 == cbraceChar then some (Json.obj [], rest)
          else
            match parseMembers fuel (c2 :: rest) with
            | none => none
            | some (kvs, rest2) => some (Json.obj kvs, rest2)
      else if c == '-' then
        let p := spanDigits cs
        if p.1.isEmpty then none
        else some (Json.num (-(Int.ofNat (digitsToNat p.1))), p.2)
      else
        let p := spanDigits (c :: cs)
        if p.1.isEmpty then none
        else some (Json.num (Int.ofNat (digitsToNat p.1)), p.2)

/-- Parse the comma-separated items of a nonempty JSON array. -/
def parseItems : Nat → List Char → Option (List Json × List Char)
  | 0, _ => none
  | fuel + 1, input =>
    match parseValue fuel input with
    | none => none
    | some (v, rest) =>
      match skipWs rest with
      | ',' :: rest2 =>
        match parseItems fuel rest2 with
        | none => none
        | some (vs, rest3) => some (v :: vs, rest3)
      | ']' :: rest2 => some ([v], rest2)
      | _ => none

/-- Parse the comma-separated members of a nonempty JSON object. -/
def parseMembers : Nat → List Char → Option (List (String × Json) × List Char)
  | 0, _ => none
  | fuel + 1, input =>
    match skipWs input with
    | '"' :: cs =>
      match parseJStr fuel cs with
      | none => none
      | some (k, rest) =>
        match skipWs rest with
        | ':' :: rest2 =>
          match parseValue fuel rest2 with
          | none => none
          | some (v, rest3) =>
            match skipWs rest3 with
            | [] => none
            | c :: rest4 =>
              if c == ',' then
                match parseMembers fuel rest4 with
                | none => none
                | some (kvs, rest5) => some ((k, v) :: kvs, rest5)
              else if c == cbraceChar then some ([(k, v)], rest4)
              else none
        | _ => none
    | _ => none

end

/-- Executable model of json.loads: parse a whole string, requiring
only trailing whitespace after the value; malformed input gives none
(in Python, a raised JSONDecodeError). -/
def json_loads (s : String) : Option Json :=
  match parseValue (s.length + 1) s.data with
  | none => none
  | some (v, rest) => if (skipWs rest).isEmpty then some v else none

/-- Escape one character as json.dumps does for the characters the
repository emits. -/
def escChar (c : Char) : String :=
  if c == '"' then "\\\""
  else if c == '\\' then "\\\\"
  else if c == '\n' then "\\n"
  else String.singleton c

/-- Escape a string body for serialization. -/
def escapeString (s : String) : String :=
  s.data.foldl (fun acc c => acc ++ escChar c) ""

mutual

/-- Fueled JSON serializer, following json.dumps default separators. -/
def dumpsF : Nat → Json → String
  | _, Json.null => "null"
  | _, Json.bool true => "true"
  | _, Json.bool false => "false"
  | _, Json.num n => toString n
  | _, Json.str s => "\"" ++ escapeString s ++ "\""
  | 0, _ => ""
  | fuel + 1, Json.arr xs => "[" ++ dumpsItemsF fuel xs ++ "]"
  | fuel + 1, Json.obj kvs =>
    String.singleton obraceChar ++ dumpsMembersF fuel kvs ++ String.singleton cbraceChar

/-- Serialize array items with ", " separators. -/
def dumpsItemsF : Nat → List Json → String
  | 0, _ => ""
  | _, [] => ""
  | fuel + 1, [x] => dumpsF fuel x
  | fuel + 1, x :: y :: rest => dumpsF fuel x ++ ", " ++ dumpsItemsF (fuel + 1) (y :: rest)

/-- Serialize object members with ", " and ": " separators. -/
def dumpsMembersF : Nat → List (String × Json) → String
  | 0, _ => ""
  | _, [] => ""
  | fuel + 1, [kv] => "\"" ++ escapeString kv.1 ++ "\": " ++ dumpsF fuel kv.2
  | fuel + 1, kv :: kv2 :: rest =>
    "\"" ++ escapeString kv.1 ++ "\": " ++ dumpsF fuel kv.2 ++ ", " ++
      dumpsMembersF (fuel + 1) (kv2 :: rest)

end

/-- Size of a JSON value, fuel bound for the serializer. -/
def jsize : Json → Nat
  | Json.null => 1
  | Json.bool _ => 1
  | Json.num _ => 1
  | Json.str _ => 1
  | Json.arr xs => 1 + jsizeList xs
  | Json.obj kvs => 1 + jsizeMembers kvs
where
  jsizeList : List Json → Nat
    | [] => 0
    | x :: rest => jsize x + jsizeList rest
  jsizeMembers : List (String × Json) → Nat
    | [] => 0
    | kv :: rest => jsize kv.2 + jsizeMembers rest

/-- Executable model of json.dumps; the fuel bound is generous, two
steps per node of the value. -/
def json_dumps (j : Json) : String := dumpsF (2 * jsize j + 1) j

/-- One item of response.output: assistant message text, reasoning, a
schema-typed function_call (call_id, name, arguments), or a
grammar-typed custom_tool_call (call_id, name, input). -/
inductive OutputItem where
  | message : String → OutputItem
  | reasoning : String → OutputItem
  | functionCall : String → String → String → OutputItem
  | customToolCall : String → String → String → OutputItem
deriving DecidableEq

/-- A model response: response.output plus response.output_text. -/
structure Response where
  output : List OutputItem
  output_text : Option String
deriving DecidableEq

/-- One entry of the input_list / messages list threaded through the
loop: a seeded role message, an appended response output item, or an
appended function_call_output dict (call_id, output). -/
inductive ConvItem where
  | roleMsg : String → String → ConvItem
  | outputItem : OutputItem → ConvItem
  | functionCallOutput : String → String → ConvItem
deriving DecidableEq

/-- An uncaught Python exception aborting the session: a
json.loads decode failure, or a ValueError raised by call_tool. -/
inductive Fault where
  | jsonDecodeError : String → Fault
  | valueError : String → Fault
deriving DecidableEq

/-- The call_tool function of normal_functions.py (identical in
todos-test/cfg_functions.py): get_current_datetime returns the clock
reading, add_todo appends its args to the todos.json list and returns
None (serialized later as null), any other name raises ValueError. -/
def call_tool (clock : String) (todos : List Json) (name : String) (args : Json) :
    Except String (List Json × Json) :=
  if name == "get_current_datetime" then
    Except.ok (todos, Json.obj [("current_datetime", Json.str clock)])
  else if name == "add_todo" then
    Except.ok (todos ++ [args], Json.null)
  else
    Except.error ("Unknown tool: " ++ name)

/-- The for-loop over response.output in normal_functions.main: skip
items that are not function_call, json.loads the arguments, run
call_tool, and append one function_call_output per call. An uncaught
exception surfaces as a Fault. -/
def dispatchRound (decode : String → Option Json) (clock : String) :
    List OutputItem → List Json → List ConvItem → Except Fault (List Json × List ConvItem)
  | [], todos, msgs => Except.ok (todos, msgs)
  | OutputItem.functionCall callId name rawArgs :: rest, todos, msgs =>
    match decode rawArgs with
    | none => Except.error (Fault.jsonDecodeError rawArgs)
    | some args =>
      match call_tool clock todos name args with
      | Except.error msg => Except.error (Fault.valueError msg)
      | Except.ok (todos2, result) =>
        dispatchRound decode clock rest todos2
          (msgs ++ [ConvItem.functionCallOutput callId (json_dumps result)])
  | _ :: rest, todos, msgs => dispatchRound decode clock rest todos msgs

/-- The for-loop of todos-test/cfg_functions.main: identical to
dispatchRound except that it filters items of type custom_tool_call
and decodes tool_call.input. -/
def cfg_dispatchRound (decode : String → Option Json) (clock : String) :
    List OutputItem → List Json → List ConvItem → Except Fault (List Json × List ConvItem)
  | [], todos, msgs => Except.ok (todos, msgs)
  | OutputItem.customToolCall callId name rawInput :: rest, todos, msgs =>
    match decode rawInput with
    | none => Except.error (Fault.jsonDecodeError rawInput)
    | some args =>
      match call_tool clock todos name args with
      | Except.error msg => Except.error (Fault.valueError msg)
      | Except.ok (todos2, result) =>
        cfg_dispatchRound decode clock rest todos2
          (msgs ++ [ConvItem.functionCallOutput callId (json_dumps result)])
  | _ :: rest, todos, msgs => cfg_dispatchRound decode clock rest todos msgs

/-- Outcome of the while-true loop: normal exit with the final
messages, todos state, final text and round count; abort by uncaught
exception; or fuel exhaustion of the embedding (the Python loop is
unbounded). -/
inductive SessionOutcome where
  | finished : List ConvItem → List Json → Option String → Nat → SessionOutcome
  | aborted : Fault → SessionOutcome
  | outOfFuel : SessionOutcome

/-- The while-true loop of normal_functions.main (lines 120-159,
identical in price_compare.py lines 172-206 and the email scripts):
append response.output to the messages, remember the length, dispatch
the function calls appending their outputs, exit if the length did not
grow, otherwise call the model again and repeat with round_num + 1. -/
def toolLoop (decode : String → Option Json) (clock : String)
    (model : List ConvItem → Response) :
    Nat → Response → List ConvItem → List Json → Nat → SessionOutcome
  | 0, _, _, _, _ => SessionOutcome.outOfFuel
  | fuel + 1, resp, msgs, todos, roundNum =>
    let msgs1 := msgs ++ resp.output.map ConvItem.outputItem
    match dispatchRound decode clock resp.output todos msgs1 with
    | Except.error f => SessionOutcome.aborted f
    | Except.ok (todos2, msgs2) =>
      if msgs2.length == msgs1.length then
        SessionOutcome.finished msgs2 todos2 resp.output_text roundNum
      else
        toolLoop decode clock model fuel (model msgs2) msgs2 todos2 (roundNum + 1)

/-- The system prompt of normal_functions.main (content inert for the
properties proved here). -/
def initial_prompt : String :=
  "You are a helpful internal system whose job is to read the transcript of the user and extract todos to add."

/-- normal_functions.main: seed the input list with the system and
user messages, issue the initial inference call, and run the loop from
round 1 with an empty todos.json. -/
def runSession (decode : String → Option Json) (clock : String)
    (model : List ConvItem → Response) (fuel : Nat) (transcript : String) :
    SessionOutcome :=
  let input0 := [ConvItem.roleMsg ("system") initial_prompt,
                 ConvItem.roleMsg ("user") ("Transcript:\n" ++ transcript)]
  toolLoop decode clock model fuel (model input0) input0 [] 1

/-- True of the output items the normal loop dispatches. -/
def isFunctionCall : OutputItem → Bool
  | OutputItem.functionCall _ _ _ => true
  | _ => false

/-- The call_id sequence of the function_call items of a response
output, in order. -/
def callIds (output : List OutputItem) : List String :=
  output.filterMap fun it =>
    match it with
    | OutputItem.functionCall cid _ _ => some cid
    | _ => none

/-- The call_id sequence of the tool-invocation requests recorded in a
conversation (function_call output items), in order. -/
def convRequestIds (msgs : List ConvItem) : List String :=
  msgs.filterMap fun it =>
    match it with
    | ConvItem.outputItem (OutputItem.functionCall cid _ _) => some cid
    | _ => none

/-- The call_id sequence of the tool results recorded in a
conversation (function_call_output items), in order. -/
def convResultIds (msgs : List ConvItem) : List String :=
  msgs.filterMap fun it =>
    match it with
    | ConvItem.functionCallOutput cid _ => some cid
    | _ => none

/-- Outcome of the externally guarded loop: as SessionOutcome, plus
the RoundLimitExceeded abort carrying whatever terminal text already
exists. -/
inductive GuardedOutcome where
  | finished : List ConvItem → List Json → Option String → Nat → GuardedOutcome
  | aborted : Fault → GuardedOutcome
  | roundLimitExceeded : Option String → List ConvItem → Nat → GuardedOutcome

/-- Modelled from the spec: the repository loops carry no round guard;
sections 5 and 7 of the spec require an external caller-supplied
maximum-round guard that ends the session in RoundLimitExceeded with
whatever terminal text already exists. The remaining parameter counts
the rounds the guard still allows beyond the current one, so remaining
equals maxRounds minus roundNum; the body is otherwise the source loop
of normal_functions.main. -/
def toolLoopGuardedAux (decode : String → Option Json) (clock : String)
    (model : List ConvItem → Response) :
    Nat → Response → List ConvItem → List Json → Nat → GuardedOutcome
  | remaining, resp, msgs, todos, roundNum =>
    let msgs1 := msgs ++ resp.output.map ConvItem.outputItem
    match dispatchRound decode clock resp.output todos msgs1 with
    | Except.error f => GuardedOutcome.aborted f
    | Except.ok (todos2, msgs2) =>
      if msgs2.length == msgs1.length then
        GuardedOutcome.finished msgs2 todos2 resp.output_text roundNum
      else
        match remaining with
        | 0 => GuardedOutcome.roundLimitExceeded resp.output_text msgs2 roundNum
        | r + 1 =>
          toolLoopGuardedAux decode clock model r (model msgs2) msgs2 todos2 (roundNum + 1)

/-- Modelled from the spec: the guarded loop started at round 1 with a
caller-supplied maximum round count of maxRounds. -/
def toolLoopGuarded (decode : String → Option Json) (clock : String)
    (model : List ConvItem → Response) (maxRounds : Nat)
    (resp : Response) (msgs : List ConvItem) (todos : List Json) : GuardedOutcome :=
  toolLoopGuardedAux decode clock model (maxRounds - 1) resp msgs todos 1

/-- A streaming event as consumed by simple-test/simple_price.main:
an argument-delta fragment keyed by a stream-local item id, the
input-done event for an item, or any other event type. -/
inductive StreamEvent where
  | inputDelta : String → String → StreamEvent
  | inputDone : String → Option String → StreamEvent
  | otherEvent : String → StreamEvent
deriving DecidableEq

/-- Read a buffer from the tool_input_buffers dict, defaulting to the
empty string as dict.get does. -/
def bufGet (bufs : List (String × String)) (id : String) : String :=
  match bufs.find? (fun kv => kv.1 == id) with
  | some kv => kv.2
  | none => ""

/-- Write a buffer into the dict, replacing in place or appending. -/
def bufSet (bufs : List (String × String)) (id v : String) : List (String × String) :=
  match bufs with
  | [] => [(id, v)]
  | kv :: rest => if kv.1 == id then (id, v) :: rest else kv :: bufSet rest id v

/-- The event loop of simple_price.main lines 84-141 restricted to the
buffer it maintains: a delta event with a truthy (nonempty) item id
appends its fragment to that id, every other event leaves the buffers
unchanged. -/
def processStream : List StreamEvent → List (String × String) → List (String × String)
  | [], bufs => bufs
  | StreamEvent.inputDelta id delta :: rest, bufs =>
    if id == "" then processStream rest bufs
    else processStream rest (bufSet bufs id (bufGet bufs id ++ delta))
  | _ :: rest, bufs => processStream rest bufs

/-- The delta fragments of one item id, in arrival order. -/
def deltasFor (events : List StreamEvent) (id : String) : List String :=
  events.filterMap fun e =>
    match e with
    | StreamEvent.inputDelta i d => if i == id then some d else none
    | _ => none

/-- The scan of simple_price.main lines 160-164: the first
custom_tool_call item of the final assembled response, if any. -/
def firstCustomToolCall (output : List OutputItem) : Option OutputItem :=
  output.find? fun it =>
    match it with
    | OutputItem.customToolCall _ _ _ => true
    | _ => false

/-- A price record of the price_catalog of price_compare.py. -/
structure PriceRec where
  priceCents : Int
  inStock : Bool
deriving DecidableEq

/-- The price_catalog dict of price_compare.main. -/
def price_catalog (store sku : String) : Option PriceRec :=
  if store == "storeA" then
    if sku == "N3-KEYBRD" then some ⟨4999, true⟩
    else if sku == "OOS-ITEM" then some ⟨12999, false⟩
    else none
  else if store == "storeB" then
    if sku == "N3-KEYBRD" then some ⟨4799, true⟩
    else if sku == "OOS-ITEM" then some ⟨9999, false⟩
    else none
  else none

/-- A shipping record of the shipping_table of price_compare.py. -/
structure ShipRec where
  method : String
  shippingCents : Int
  etaDays : Int
deriving DecidableEq

/-- The shipping_table dict of price_compare.main. -/
def shipping_table (store : String) : Option ShipRec :=
  if store == "storeA" then some ⟨"standard", 599, 5⟩
  else if store == "storeB" then some ⟨"expedited", 1299, 2⟩
  else none

/-- The call_tool function of price_compare.main (lines 115-151):
getPrice looks the store and sku up in the catalog, treating a missing
record as out of stock; getShipping reads the per-store shipping
record (raising TypeError if the store is absent, as subscripting None
does); any other name raises ValueError. -/
def price_call_tool (name : String) (args : Json) : Except String Json :=
  if name == "getPrice" then
    match jsonGet args ("store"), jsonGet args ("sku") with
    | some (Json.str store), some (Json.str sku) =>
      match price_catalog store sku with
      | none =>
        Except.ok (Json.obj [("store", Json.str store), ("sku", Json.str sku),
          ("priceCents", Json.num 0), ("inStock", Json.bool false),
          ("currency", Json.str "USD")])
      | some rec0 =>
        Except.ok (Json.obj [("store", Json.str store), ("sku", Json.str sku),
          ("priceCents", Json.num rec0.priceCents), ("inStock", Json.bool rec0.inStock),
          ("currency", Json.str "USD")])
    | _, _ => Except.error ("KeyError")
  else if name == "getShipping" then
    match jsonGet args ("store"), jsonGet args ("sku"), jsonGet args ("zip") with
    | some (Json.str store), some (Json.str sku), some (Json.str _) =>
      match shipping_table store with
      | none => Except.error ("TypeError: NoneType is not subscriptable")
      | some rec0 =>
        Except.ok (Json.obj [("store", Json.str store), ("sku", Json.str sku),
          ("shippingCents", Json.num rec0.shippingCents),
          ("etaDays", Json.num rec0.etaDays),
          ("method", Json.str rec0.method), ("currency", Json.str "USD")])
    | _, _, _ => Except.error ("KeyError")
  else
    Except.error ("Unknown tool: " ++ name)

/-- Python list slicing threads[:limit] for an int limit. -/
def pySlice (l : List Json) (n : Int) : List Json :=
  if n < 0 then l.take (l.length - n.natAbs) else l.take n.toNat

/-- The unread_threads mock list of email_triage.main (identical in
cfg_email_triage.main). -/
def unread_threads : List Json :=
  [Json.obj [("id", Json.str "t1"), ("from", Json.str "alex@example.com"),
     ("subject", Json.str "Quick sync this week?"),
     ("snippet", Json.str "Are you free for a 30-min chat to discuss the roadmap?"),
     ("needsMeeting", Json.bool true)],
   Json.obj [("id", Json.str "t2"), ("from", Json.str "billing@example.com"),
     ("subject", Json.str "Invoice attached"),
     ("snippet", Json.str "Please review the attached invoice."),
     ("needsMeeting", Json.bool false)],
   Json.obj [("id", Json.str "t3"), ("from", Json.str "sam@example.com"),
     ("subject", Json.str "Meet next week about launch"),
     ("snippet", Json.str "Can we find time next week?"),
     ("needsMeeting", Json.bool true)]]

/-- The fixed timezone string of both email triage scripts. -/
def emailTz : String := "America/Los_Angeles"

/-- The call_tool function of email_triage.main (lines 160-169;
cfg_email_triage.main lines 140-148 differs only in not reading the
range key): listUnreadThreads slices the mock threads by the optional
limit; getCalendarAvailability reads args, then ignores the requested
range entirely and returns the precomputed all_slots list and the
fixed timezone; any other name raises ValueError. The all_slots value
is the session-precomputed 7-day business-hours slot list, a parameter
here because it derives from datetime.now(). -/
def email_call_tool (all_slots : List Json) (name : String) (args : Json) :
    Except String Json :=
  if name == "listUnreadThreads" then
    match jsonGet args ("limit") with
    | some (Json.num n) =>
      Except.ok (Json.obj [("threads", Json.arr (pySlice unread_threads n))])
    | some _ => Except.error ("TypeError: int()")
    | none => Except.ok (Json.obj [("threads", Json.arr (pySlice unread_threads 10))])
  else if name == "getCalendarAvailability" then
    match jsonGet args ("range") with
    | none => Except.error ("KeyError: range")
    | some _ =>
      Except.ok (Json.obj [("slots", Json.arr all_slots), ("tz", Json.str emailTz)])
  else
    Except.error ("Unknown tool: " ++ name)

/-! Concrete stub data: a deterministic inference stub and concrete
payload strings, used to evaluate the theorems on closed runs. -/

/-- A fixed clock reading standing for datetime.now(). -/
def clockA : String := "2024-01-01 00:00:00"

/-- The raw argument string of an argumentless call. -/
def rawEmpty : String := "\x7b\x7d"

/-- A raw argument string for an add_todo call. -/
def rawTodoArgs : String :=
  "\x7b\"title\": \"call mom\", \"due\": null, \"priority\": \"high\"\x7d"

/-- The decoded value of rawTodoArgs. -/
def todoArgs : Json :=
  Json.obj [("title", Json.str "call mom"), ("due", Json.null),
    ("priority", Json.str "high")]

/-- The seeded conversation of a session over a one-word transcript. -/
def seedMsgs : List ConvItem :=
  [ConvItem.roleMsg ("system") initial_prompt,
   ConvItem.roleMsg ("user") ("Transcript:\nhello")]

/-- A first-round stub response: one reasoning item and two function
calls. -/
def stubRespTools : Response :=
  { output := [OutputItem.reasoning ("thinking"),
               OutputItem.functionCall ("call_1") ("get_current_datetime") rawEmpty,
               OutputItem.functionCall ("call_2") ("add_todo") rawTodoArgs],
    output_text := none }

/-- A final stub response: text only, no tool calls. -/
def stubRespDone : Response :=
  { output := [OutputItem.message ("All done")], output_text := some ("All done") }

/-- A deterministic inference stub: tools on the seeded conversation,
text afterwards. -/
def stubModelA (conv : List ConvItem) : Response :=
  if conv.length ≤ 2 then stubRespTools else stubRespDone

/-- A stub response requesting a never-declared tool. -/
def stubRespBadTool : Response :=
  { output := [OutputItem.functionCall ("call_9") ("frobnicate") rawEmpty],
    output_text := none }

/-- A malformed raw argument string. -/
def rawBad : String := "not json"

/-- A stub response whose tool call carries malformed arguments. -/
def stubRespBadArgs : Response :=
  { output := [OutputItem.functionCall ("call_7") ("add_todo") rawBad],
    output_text := none }

/-- A constant inference stub (its value is never reached in the
aborting runs it is used for). -/
def stubModelBad (_conv : List ConvItem) : Response := stubRespBadTool

/-- The serialized get_current_datetime result under clockA. -/
def dtOutA : String := "\x7b\"current_datetime\": \"2024-01-01 00:00:00\"\x7d"

/-- The conversation after appending the round-1 stub output. -/
def wMsgs1 : List ConvItem := seedMsgs ++ stubRespTools.output.map ConvItem.outputItem

/-- The conversation after round-1 dispatch appended both results. -/
def wMsgs2 : List ConvItem :=
  wMsgs1 ++ [ConvItem.functionCallOutput ("call_1") dtOutA,
             ConvItem.functionCallOutput ("call_2") ("null")]

/-- The conversation after appending the round-2 text-only output. -/
def wMsgs3 : List ConvItem :=
  wMsgs2 ++ [ConvItem.outputItem (OutputItem.message ("All done"))]

/-- A concrete streaming event trace interleaving two item ids. -/
def wEvents : List StreamEvent :=
  [StreamEvent.otherEvent ("response.in_progress"),
   StreamEvent.inputDelta ("item_1") ("\x7b\"sku\":"),
   StreamEvent.inputDelta ("item_2") ("\x7b\x7d"),
   StreamEvent.inputDelta ("item_1") (" \"SKU-001\"\x7d"),
   StreamEvent.inputDone ("item_1") (some ("\x7b\"sku\": \"SKU-001\"\x7d")),
   StreamEvent.otherEvent ("response.completed")]

/-- Concatenation of fragments in arrival order. -/
def joinDeltas : List String → String
  | [] => ""
  | s :: rest => s ++ joinDeltas rest

/-- A concrete requested range value. -/
def calRange1 : Json :=
  Json.obj [("startIso", Json.str "2024-01-01T00:00:00"),
    ("endIso", Json.str "2024-01-08T00:00:00")]

/-- A second, different requested range value. -/
def calRange2 : Json :=
  Json.obj [("startIso", Json.str "2030-06-15T09:00:00"),
    ("endIso", Json.str "2030-06-16T17:00:00")]

/-- A concrete calendar-availability argument object. -/
def calArgs1 : Json := Json.obj [("range", calRange1)]

/-- A second calendar-availability argument with a different range. -/
def calArgs2 : Json := Json.obj [("range", calRange2)]

/-- A tiny concrete precomputed slot list. -/
def wSlots : List Json :=
  [Json.obj [("startIso", Json.str "2024-01-01T09:00:00"),
    ("endIso", Json.str "2024-01-01T09:30:00"), ("busy", Json.bool true)]]

/-! Lemmas about the id projections. -/

@[simp] theorem callIds_nil : callIds [] = [] := rfl

@[simp] theorem callIds_cons_message (s : String) (rest : List OutputItem) :
    callIds (OutputItem.message s :: rest) = callIds rest := rfl

@[simp] theorem callIds_cons_reasoning (s : String) (rest : List OutputItem) :
    callIds (OutputItem.reasoning s :: rest) = callIds rest := rfl

@[simp] theorem callIds_cons_custom (cid nm inp : String) (rest : List OutputItem) :
    callIds (OutputItem.customToolCall cid nm inp :: rest) = callIds rest := rfl

@[simp] theorem callIds_cons_fc (cid nm a : String) (rest : List OutputItem) :
    callIds (OutputItem.functionCall cid nm a :: rest) = cid :: callIds rest := rfl

@[simp] theorem convResultIds_nil : convResultIds [] = [] := rfl

@[simp] theorem convResultIds_cons_fco (cid out : String) (rest : List ConvItem) :
    convResultIds (ConvItem.functionCallOutput cid out :: rest)
      = cid :: convResultIds rest := rfl

@[simp] theorem convResultIds_cons_role (role content : String) (rest : List ConvItem) :
    convResultIds (ConvItem.roleMsg role content :: rest) = convResultIds rest := rfl

@[simp] theorem convResultIds_cons_out (it : OutputItem) (rest : List ConvItem) :
    convResultIds (ConvItem.outputItem it :: rest) = convResultIds rest := by
  cases it <;> rfl

@[simp] theorem convRequestIds_nil : convRequestIds [] = [] := rfl

@[simp] theorem convRequestIds_cons_fco (cid out : String) (rest : List ConvItem) :
    convRequestIds (ConvItem.functionCallOutput cid out :: rest)
      = convRequestIds rest := rfl

@[simp] theorem convRequestIds_cons_role (role content : String) (rest : List ConvItem) :
    convRequestIds (ConvItem.roleMsg role content :: rest) = convRequestIds rest := rfl

@[simp] theorem convRequestIds_cons_out_fc (cid nm a : String) (rest : List ConvItem) :
    convRequestIds (ConvItem.outputItem (OutputItem.functionCall cid nm a) :: rest)
      = cid :: convRequestIds rest := rfl

@[simp] theorem convRequestIds_cons_out_message (s : String) (rest : List ConvItem) :
    convRequestIds (ConvItem.outputItem (OutputItem.message s) :: rest)
      = convRequestIds rest := rfl

@[simp] theorem convRequestIds_cons_out_reasoning (s : String) (rest : List ConvItem) :
    convRequestIds (ConvItem.outputItem (OutputItem.reasoning s) :: rest)
      = convRequestIds rest := rfl

@[simp] theorem convRequestIds_cons_out_custom (cid nm inp : String) (rest : List ConvItem) :
    convRequestIds (ConvItem.outputItem (OutputItem.customToolCall cid nm inp) :: rest)
      = convRequestIds rest := rfl

theorem convResultIds_append (a b : List ConvItem) :
    convResultIds (a ++ b) = convResultIds a ++ convResultIds b :=
  List.filterMap_append a b _

theorem convRequestIds_append (a b : List ConvItem) :
    convRequestIds (a ++ b) = convRequestIds a ++ convRequestIds b :=
  List.filterMap_append a b _

theorem convRequestIds_map_outputItem (output : List OutputItem) :
    convRequestIds (output.map ConvItem.outputItem) = callIds output := by
  induction output with
  | nil => rfl
  | cons it rest ih => cases it <;> simp [ih]

theorem convResultIds_map_outputItem (output : List OutputItem) :
    convResultIds (output.map ConvItem.outputItem) = [] := by
  induction output with
  | nil => rfl
  | cons it rest ih => cases it <;> simp [ih]

/-- Shape of a successful dispatch: the new conversation is the old
one followed by a block of function_call_output records whose call_id
sequence is exactly the call_id sequence of the function_call items of
the response output. -/
theorem dispatchRound_ok_shape (decode : String → Option Json) (clock : String)
    (output : List OutputItem) :
    ∀ (todos : List Json) (msgs : List ConvItem) (todos2 : List Json) (msgs2 : List ConvItem),
      dispatchRound decode clock output todos msgs = Except.ok (todos2, msgs2) →
      ∃ news, msgs2 = msgs ++ news
        ∧ (∀ it ∈ news, ∃ cid out, it = ConvItem.functionCallOutput cid out)
        ∧ convResultIds news = callIds output
        ∧ convRequestIds news = []
        ∧ news.length = (callIds output).length := by
  induction output with
  | nil =>
    intro todos msgs todos2 msgs2 h
    simp only [dispatchRound, Except.ok.injEq, Prod.mk.injEq] at h
    obtain ⟨h1, h2⟩ := h
    subst h1
    subst h2
    refine ⟨[], by simp, ?_, rfl, rfl, rfl⟩
    intro it hit
    cases hit
  | cons it rest ih =>
    intro todos msgs todos2 msgs2 h
    cases it with
    | functionCall cid nm raw =>
      simp only [dispatchRound] at h
      split at h
      · exact absurd h (by simp)
      · split at h
        · exact absurd h (by simp)
        · rename_i args hdec p todos3 result hct
          obtain ⟨news, hm, hfco, hres, hreq, hlen⟩ := ih _ _ _ _ h
          refine ⟨ConvItem.functionCallOutput cid (json_dumps result) :: news,
            ?_, ?_, ?_, ?_, ?_⟩
          · rw [hm]
            simp
          · intro x hx
            cases hx with
            | head => exact ⟨cid, json_dumps result, rfl⟩
            | tail _ hx2 => exact hfco x hx2
          · simp [hres]
          · simp [hreq]
          · simp [hlen]
    | message s =>
      simp only [dispatchRound] at h
      obtain ⟨news, hm, hfco, hres, hreq, hlen⟩ := ih _ _ _ _ h
      exact ⟨news, hm, hfco, by simp [hres], hreq, by simp [hlen]⟩
    | reasoning s =>
      simp only [dispatchRound] at h
      obtain ⟨news, hm, hfco, hres, hreq, hlen⟩ := ih _ _ _ _ h
      exact ⟨news, hm, hfco, by simp [hres], hreq, by simp [hlen]⟩
    | customToolCall cid nm inp =>
      simp only [dispatchRound] at h
      obtain ⟨news, hm, hfco, hres, hreq, hlen⟩ := ih _ _ _ _ h
      exact ⟨news, hm, hfco, by simp [hres], hreq, by simp [hlen]⟩

/-- Unfolding of one loop iteration over a successful dispatch. -/
theorem toolLoop_succ_eq (decode : String → Option Json) (clock : String)
    (model : List ConvItem → Response) (fuel : Nat) (resp : Response)
    (msgs : List ConvItem) (todos todos2 : List Json) (msgs2 : List ConvItem) (n : Nat)
    (hdisp : dispatchRound decode clock resp.output todos
        (msgs ++ resp.output.map ConvItem.outputItem) = Except.ok (todos2, msgs2)) :
    toolLoop decode clock model (fuel + 1) resp msgs todos n
      = if msgs2.length == (msgs ++ resp.output.map ConvItem.outputItem).length
        then SessionOutcome.finished msgs2 todos2 resp.output_text n
        else toolLoop decode clock model fuel (model msgs2) msgs2 todos2 (n + 1) := by
  simp only [toolLoop]
  rw [hdisp]

/-- C1. The orchestration loop exits its request/dispatch cycle
exactly when the round response contains zero items of the dispatched
tool-call type: after a successful dispatch of a round, the loop
finishes with the terminal text of that response precisely when the
function_call items of the response output are empty, and otherwise it
always dispatches and issues another inference round; the round
counter n is arbitrary and never produces the exit. -/
theorem loop_exit_gated_only_by_tool_calls
    (decode : String → Option Json) (clock : String)
    (model : List ConvItem → Response) (fuel : Nat) (resp : Response)
    (msgs : List ConvItem) (todos todos2 : List Json) (msgs2 : List ConvItem) (n : Nat)
    (hdisp : dispatchRound decode clock resp.output todos
        (msgs ++ resp.output.map ConvItem.outputItem) = Except.ok (todos2, msgs2)) :
    (callIds resp.output = [] →
      toolLoop decode clock model (fuel + 1) resp msgs todos n
        = SessionOutcome.finished msgs2 todos2 resp.output_text n)
    ∧ (callIds resp.output ≠ [] →
      toolLoop decode clock model (fuel + 1) resp msgs todos n
        = toolLoop decode clock model fuel (model msgs2) msgs2 todos2 (n + 1)) := by
  obtain ⟨news, hm, _, _, _, hlen⟩ :=
    dispatchRound_ok_shape decode clock resp.output todos _ todos2 msgs2 hdisp
  have hlen2 : msgs2.length
      = (msgs ++ resp.output.map ConvItem.outputItem).length + news.length := by
    rw [hm, List.length_append]
  rw [toolLoop_succ_eq decode clock model fuel resp msgs todos todos2 msgs2 n hdisp]
  constructor
  · intro hnil
    have h0 : news.length = 0 := by rw [hlen, hnil]; rfl
    have hcond : (msgs2.length
        == (msgs ++ resp.output.map ConvItem.outputItem).length) = true := by
      rw [hlen2, h0]
      simp
    simp only [hcond, if_true]
  · intro hne
    have h0 : news.length ≠ 0 := by
      rw [hlen]
      simpa using hne
    have hcond : (msgs2.length
        == (msgs ++ resp.output.map ConvItem.outputItem).length) = false := by
      rw [hlen2]
      simp only [beq_eq_false_iff_ne, ne_eq]
      omega
    simp only [hcond, Bool.false_eq_true, if_false]

/-- C1 witness: the concrete stub session, exercised on the tool
round, where the loop continues exactly because the response contains
function calls. -/
theorem loop_exit_gated_only_by_tool_calls_witness :
    callIds stubRespTools.output ≠ [] ∧
    toolLoop json_loads clockA stubModelA 2 stubRespTools seedMsgs [] 1
      = toolLoop json_loads clockA stubModelA 1 (stubModelA wMsgs2) wMsgs2 [todoArgs] 2 :=
  ⟨by decide,
   (loop_exit_gated_only_by_tool_calls json_loads clockA stubModelA 1 stubRespTools
     seedMsgs [] [todoArgs] wMsgs2 1 (by rfl)).2 (by decide)⟩

/-- The loop preserves the balance between recorded tool-invocation
requests and recorded tool results: a finished run starting from a
balanced conversation ends with the request id sequence equal to the
result id sequence. -/
theorem toolLoop_finished_balanced (decode : String → Option Json) (clock : String)
    (model : List ConvItem → Response) :
    ∀ (fuel : Nat) (resp : Response) (msgs : List ConvItem) (todos : List Json) (n : Nat)
      (msgs3 : List ConvItem) (todos3 : List Json) (t : Option String) (r : Nat),
      convRequestIds msgs = convResultIds msgs →
      toolLoop decode clock model fuel resp msgs todos n
        = SessionOutcome.finished msgs3 todos3 t r →
      convRequestIds msgs3 = convResultIds msgs3 := by
  intro fuel
  induction fuel with
  | zero =>
    intro resp msgs todos n msgs3 todos3 t r hbal h
    exact absurd h (by simp [toolLoop])
  | succ fuel ih =>
    intro resp msgs todos n msgs3 todos3 t r hbal h
    simp only [toolLoop] at h
    split at h
    · exact absurd h (by simp)
    · rename_i p todos2 msgs2 hdisp
      obtain ⟨news, hm, _, hres, hreq, _⟩ :=
        dispatchRound_ok_shape decode clock resp.output todos _ todos2 msgs2 hdisp
      have hbal2 : convRequestIds msgs2 = convResultIds msgs2 := by
        rw [hm, convRequestIds_append, convRequestIds_append,
          convResultIds_append, convResultIds_append,
          convRequestIds_map_outputItem, convResultIds_map_outputItem, hres, hreq,
          hbal]
        simp
      split at h
      · cases h
        exact hbal2
      · exact ih (model msgs2) msgs2 todos2 (n + 1) msgs3 todos3 t r hbal2 h

/-- C2. Each ToolInvocationRequest of a round gets exactly one
ToolResult carrying its own call_id appended before the next round; a
successful dispatch appends a block consisting solely of
function_call_output records whose call_id sequence equals the call_id
sequence of the function_call items of the response, and consequently
a finished session started from a balanced conversation ends with
equal request and result call_id sequences across all rounds. -/
theorem every_request_gets_one_result
    (decode : String → Option Json) (clock : String)
    (model : List ConvItem → Response)
    (output : List OutputItem) (todos : List Json) (msgs : List ConvItem)
    (todos2 : List Json) (msgs2 : List ConvItem)
    (fuel : Nat) (resp : Response) (msgs0 : List ConvItem) (todos0 : List Json) (n : Nat)
    (msgs3 : List ConvItem) (todos3 : List Json) (t : Option String) (r : Nat)
    (h1 : dispatchRound decode clock output todos msgs = Except.ok (todos2, msgs2))
    (h2 : convRequestIds msgs0 = convResultIds msgs0)
    (h3 : toolLoop decode clock model fuel resp msgs0 todos0 n
        = SessionOutcome.finished msgs3 todos3 t r) :
    (∃ news, msgs2 = msgs ++ news
      ∧ (∀ it ∈ news, ∃ cid out, it = ConvItem.functionCallOutput cid out)
      ∧ convResultIds news = callIds output)
    ∧ convRequestIds msgs3 = convResultIds msgs3 := by
  obtain ⟨news, hm, hfco, hres, _, _⟩ :=
    dispatchRound_ok_shape decode clock output todos msgs todos2 msgs2 h1
  exact ⟨⟨news, hm, hfco, hres⟩,
    toolLoop_finished_balanced decode clock model fuel resp msgs0 todos0 n
      msgs3 todos3 t r h2 h3⟩

/-- C2 witness: the concrete stub session; round 1 appends exactly one
result per request, and the finished conversation is balanced. -/
theorem every_request_gets_one_result_witness :
    (∃ news, wMsgs2 = wMsgs1 ++ news
      ∧ (∀ it ∈ news, ∃ cid out, it = ConvItem.functionCallOutput cid out)
      ∧ convResultIds news = callIds stubRespTools.output)
    ∧ convRequestIds wMsgs3 = convResultIds wMsgs3 :=
  every_request_gets_one_result json_loads clockA stubModelA
    stubRespTools.output [] wMsgs1 [todoArgs] wMsgs2
    3 stubRespTools seedMsgs [] 1 wMsgs3 [todoArgs] (some ("All done")) 2
    (by rfl) (by decide) (by rfl)

/-- C3 counterexample: a request naming the never-declared tool
frobnicate makes the session hard-abort with the uncaught ValueError
raised by call_tool; no UnknownTool error ToolResult is produced and
the loop does not proceed, contrary to the claim. The same raise
happens in the price_compare dispatcher. -/
theorem unknown_tool_aborts_session_example :
    toolLoop json_loads clockA stubModelBad 5 stubRespBadTool seedMsgs [] 1
      = SessionOutcome.aborted (Fault.valueError ("Unknown tool: frobnicate"))
    ∧ call_tool clockA [] ("frobnicate") (Json.obj [])
      = Except.error ("Unknown tool: frobnicate")
    ∧ price_call_tool ("frobnicate") (Json.obj [])
      = Except.error ("Unknown tool: frobnicate") :=
  ⟨rfl, rfl, rfl⟩

/-- C3 amended: a tool-invocation request whose name was never
declared causes call_tool to raise ValueError with the message
Unknown tool, the raise propagates out of the dispatch loop, and the
session aborts before any result for that request is appended; the
price_compare dispatcher raises identically. -/
theorem unknown_tool_raises_value_error
    (decode : String → Option Json) (clock : String)
    (model : List ConvItem → Response) (fuel : Nat)
    (msgs : List ConvItem) (todos : List Json) (n : Nat)
    (cid nm raw : String) (args : Json) (rest : List OutputItem) (text : Option String)
    (hdec : decode raw = some args)
    (h1 : nm ≠ "get_current_datetime") (h2 : nm ≠ "add_todo")
    (h3 : nm ≠ "getPrice") (h4 : nm ≠ "getShipping") :
    call_tool clock todos nm args = Except.error ("Unknown tool: " ++ nm)
    ∧ price_call_tool nm args = Except.error ("Unknown tool: " ++ nm)
    ∧ toolLoop decode clock model (fuel + 1)
        { output := OutputItem.functionCall cid nm raw :: rest, output_text := text }
        msgs todos n
      = SessionOutcome.aborted (Fault.valueError ("Unknown tool: " ++ nm)) := by
  have hct : call_tool clock todos nm args = Except.error ("Unknown tool: " ++ nm) := by
    simp [call_tool, h1, h2]
  refine ⟨hct, ?_, ?_⟩
  · simp [price_call_tool, h3, h4]
  · simp only [toolLoop, dispatchRound, hdec, hct]

/-- C3 amended witness: the concrete undeclared name frobnicate. -/
theorem unknown_tool_raises_value_error_witness :
    call_tool clockA [] ("frobnicate") (Json.obj [])
      = Except.error ("Unknown tool: " ++ "frobnicate")
    ∧ price_call_tool ("frobnicate") (Json.obj [])
      = Except.error ("Unknown tool: " ++ "frobnicate")
    ∧ toolLoop json_loads clockA stubModelBad 5
        { output := OutputItem.functionCall ("call_9") ("frobnicate") rawEmpty :: [],
          output_text := none }
        seedMsgs [] 1
      = SessionOutcome.aborted (Fault.valueError ("Unknown tool: " ++ "frobnicate")) :=
  unknown_tool_raises_value_error json_loads clockA stubModelBad 4 seedMsgs [] 1
    ("call_9") ("frobnicate") rawEmpty (Json.obj []) [] none
    (by rfl) (by decide) (by decide) (by decide) (by decide)

/-- C4 counterexample: a function call whose raw arguments are not
valid JSON makes json.loads raise, aborting the round and the session;
no ToolResult carrying an error payload is appended, contrary to the
claim. -/
theorem malformed_args_abort_session_example :
    toolLoop json_loads clockA stubModelBad 5 stubRespBadArgs seedMsgs [] 1
      = SessionOutcome.aborted (Fault.jsonDecodeError rawBad) := rfl

/-- C4 amended: raw arguments that fail to decode make the dispatch
loop raise the decode error, aborting the round and the session;
no ToolResult is produced for the malformed call. -/
theorem malformed_args_raise_decode_error
    (decode : String → Option Json) (clock : String)
    (model : List ConvItem → Response) (fuel : Nat)
    (msgs : List ConvItem) (todos : List Json) (n : Nat)
    (cid nm raw : String) (rest : List OutputItem) (text : Option String)
    (hdec : decode raw = none) :
    dispatchRound decode clock (OutputItem.functionCall cid nm raw :: rest) todos msgs
      = Except.error (Fault.jsonDecodeError raw)
    ∧ toolLoop decode clock model (fuel + 1)
        { output := OutputItem.functionCall cid nm raw :: rest, output_text := text }
        msgs todos n
      = SessionOutcome.aborted (Fault.jsonDecodeError raw) := by
  constructor
  · simp only [dispatchRound, hdec]
  · simp only [toolLoop, dispatchRound, hdec]

/-- C4 amended witness: the concrete malformed string rawBad. -/
theorem malformed_args_raise_decode_error_witness :
    dispatchRound json_loads clockA
        (OutputItem.functionCall ("call_7") ("add_todo") rawBad :: []) [] seedMsgs
      = Except.error (Fault.jsonDecodeError rawBad)
    ∧ toolLoop json_loads clockA stubModelBad 5
        { output := OutputItem.functionCall ("call_7") ("add_todo") rawBad :: [],
          output_text := none }
        seedMsgs [] 1
      = SessionOutcome.aborted (Fault.jsonDecodeError rawBad) :=
  malformed_args_raise_decode_error json_loads clockA stubModelBad 4 seedMsgs [] 1
    ("call_7") ("add_todo") rawBad [] none (by rfl)

/-! Lemmas about the streaming buffers. -/

theorem bufGet_bufSet_self (bufs : List (String × String)) (id v : String) :
    bufGet (bufSet bufs id v) id = v := by
  induction bufs with
  | nil => simp [bufGet, bufSet]
  | cons kv rest ih =>
    simp only [bufSet]
    cases hh : (kv.1 == id) with
    | true => simp [bufGet]
    | false =>
      simp only [Bool.false_eq_true, if_false]
      simpa [bufGet, List.find?_cons, hh] using ih

theorem bufGet_bufSet_ne (bufs : List (String × String)) (j id v : String)
    (h : j ≠ id) :
    bufGet (bufSet bufs j v) id = bufGet bufs id := by
  induction bufs with
  | nil => simp [bufGet, bufSet, List.find?, beq_eq_false_iff_ne.mpr h]
  | cons kv rest ih =>
    simp only [bufSet]
    cases hh : (kv.1 == j) with
    | true =>
      have hkv : kv.1 = j := by simpa using hh
      simp [bufGet, List.find?_cons, beq_eq_false_iff_ne.mpr h, hkv]
    | false =>
      simp only [Bool.false_eq_true, if_false]
      cases hki : (kv.1 == id) with
      | true => simp [bufGet, List.find?_cons, hki]
      | false => simpa [bufGet, List.find?_cons, hki] using ih

@[simp] theorem deltasFor_nil (id : String) : deltasFor [] id = [] := rfl

theorem deltasFor_cons_delta (i d id : String) (rest : List StreamEvent) :
    deltasFor (StreamEvent.inputDelta i d :: rest) id
      = if i == id then d :: deltasFor rest id else deltasFor rest id := by
  cases h : (i == id) with
  | true =>
    have h2 : i = id := by simpa using h
    simp [deltasFor, List.filterMap_cons, h, h2]
  | false =>
    have h2 : ¬ i = id := by simpa using h
    simp [deltasFor, List.filterMap_cons, h, h2]

@[simp] theorem deltasFor_cons_done (i : String) (oi : Option String) (id : String)
    (rest : List StreamEvent) :
    deltasFor (StreamEvent.inputDone i oi :: rest) id = deltasFor rest id := rfl

@[simp] theorem deltasFor_cons_other (s id : String) (rest : List StreamEvent) :
    deltasFor (StreamEvent.otherEvent s :: rest) id = deltasFor rest id := rfl

/-- Running the streaming event loop grows the buffer of one item id
by the concatenation of exactly that id's delta fragments, in arrival
order. -/
theorem processStream_bufGet (id : String) (hid : id ≠ "") :
    ∀ (events : List StreamEvent) (bufs : List (String × String)),
      bufGet (processStream events bufs) id
        = bufGet bufs id ++ joinDeltas (deltasFor events id) := by
  intro events
  induction events with
  | nil =>
    intro bufs
    simp [processStream, joinDeltas, String.append_empty]
  | cons e rest ih =>
    intro bufs
    cases e with
    | inputDelta i d =>
      rw [deltasFor_cons_delta]
      by_cases hi : i = ""
      · subst hi
        have hfalse : ("" == id) = false := beq_eq_false_iff_ne.mpr (Ne.symm hid)
        simp only [processStream, beq_self_eq_true, if_true, hfalse,
          Bool.false_eq_true, if_false]
        exact ih bufs
      · have hine : (i == "") = false := beq_eq_false_iff_ne.mpr hi
        simp only [processStream, hine, Bool.false_eq_true, if_false]
        by_cases hii : i = id
        · subst hii
          rw [beq_self_eq_true, if_pos rfl, ih (bufSet bufs i (bufGet bufs i ++ d)),
            bufGet_bufSet_self, joinDeltas, String.append_assoc]
        · have hij : (i == id) = false := beq_eq_false_iff_ne.mpr hii
          rw [hij, if_neg (by simp), ih (bufSet bufs i (bufGet bufs i ++ d)),
            bufGet_bufSet_ne bufs i id (bufGet bufs i ++ d) hii]
    | inputDone i oi =>
      simpa [processStream] using ih bufs
    | otherEvent s =>
      simpa [processStream] using ih bufs

/-- C5. Streaming assembly equals the buffered arguments: for a stream
of events, the buffer assembled for a (truthy) item id by concatenating
that id's argument-delta fragments in arrival order equals the whole
rawArguments string of the buffered call, supplied here through the
wire contract of section 6 of the spec that the delta fragments of an
item concatenate to its full input; partial fragments are never handed
to a handler, dispatch in simple_price reads only the final assembled
response. -/
theorem streaming_assembly_matches_buffered (events : List StreamEvent) (id : String)
    (buffered : String)
    (h1 : id ≠ "") (h2 : buffered = joinDeltas (deltasFor events id)) :
    bufGet (processStream events []) id = buffered := by
  rw [h2, processStream_bufGet id h1 events []]
  have hnil : bufGet [] id = "" := rfl
  rw [hnil, String.empty_append]

/-- C5 witness: a concrete event trace interleaving fragments of two
item ids; the buffer of item_1 is exactly the buffered whole string. -/
theorem streaming_assembly_matches_buffered_witness :
    ("item_1" : String) ≠ "" ∧
    bufGet (processStream wEvents []) ("item_1") = "\x7b\"sku\": \"SKU-001\"\x7d" :=
  ⟨by decide,
   streaming_assembly_matches_buffered wEvents ("item_1")
     ("\x7b\"sku\": \"SKU-001\"\x7d") (by decide) (by rfl)⟩

/-- C6. With the caller-supplied maximum-round guard set to 1 and a
round whose response requests at least one tool, the guarded session
ends in RoundLimitExceeded carrying whatever terminal text already
exists, instead of iterating; the only other exit of the guarded loop
is a round with zero tool-invocation requests, which finishes
normally. Termination for every input is by construction, since
toolLoopGuarded is a total function. -/
theorem round_limit_guard_trips
    (decode : String → Option Json) (clock : String)
    (model : List ConvItem → Response) (resp : Response)
    (msgs : List ConvItem) (todos todos2 : List Json) (msgs2 : List ConvItem)
    (hdisp : dispatchRound decode clock resp.output todos
        (msgs ++ resp.output.map ConvItem.outputItem) = Except.ok (todos2, msgs2)) :
    (callIds resp.output = [] →
      toolLoopGuarded decode clock model 1 resp msgs todos
        = GuardedOutcome.finished msgs2 todos2 resp.output_text 1)
    ∧ (callIds resp.output ≠ [] →
      toolLoopGuarded decode clock model 1 resp msgs todos
        = GuardedOutcome.roundLimitExceeded resp.output_text msgs2 1) := by
  obtain ⟨news, hm, _, _, _, hlen⟩ :=
    dispatchRound_ok_shape decode clock resp.output todos _ todos2 msgs2 hdisp
  have hlen2 : msgs2.length
      = (msgs ++ resp.output.map ConvItem.outputItem).length + news.length := by
    rw [hm, List.length_append]
  have hstep : toolLoopGuarded decode clock model 1 resp msgs todos
      = if msgs2.length == (msgs ++ resp.output.map ConvItem.outputItem).length
        then GuardedOutcome.finished msgs2 todos2 resp.output_text 1
        else GuardedOutcome.roundLimitExceeded resp.output_text msgs2 1 := by
    unfold toolLoopGuarded
    simp only [toolLoopGuardedAux]
    rw [hdisp]
  rw [hstep]
  constructor
  · intro hnil
    have h0 : news.length = 0 := by rw [hlen, hnil]; rfl
    have hcond : (msgs2.length
        == (msgs ++ resp.output.map ConvItem.outputItem).length) = true := by
      rw [hlen2, h0]
      simp
    simp only [hcond, if_true]
  · intro hne
    have h0 : news.length ≠ 0 := by
      rw [hlen]
      simpa using hne
    have hcond : (msgs2.length
        == (msgs ++ resp.output.map ConvItem.outputItem).length) = false := by
      rw [hlen2]
      simp only [beq_eq_false_iff_ne, ne_eq]
      omega
    simp only [hcond, Bool.false_eq_true, if_false]

/-- C6 witness: the concrete stub session under a guard of 1; the tool
round trips the guard. -/
theorem round_limit_guard_trips_witness :
    callIds stubRespTools.output ≠ [] ∧
    toolLoopGuarded json_loads clockA stubModelA 1 stubRespTools seedMsgs []
      = GuardedOutcome.roundLimitExceeded none wMsgs2 1 :=
  ⟨by decide,
   (round_limit_guard_trips json_loads clockA stubModelA stubRespTools seedMsgs []
     [todoArgs] wMsgs2 (by rfl)).2 (by decide)⟩

/-- C8. The orchestration loop introduces no nondeterminism: two runs
of a session over the same transcript against pointwise-equal
deterministic inference stubs, decoders and clock readings produce
identical outcomes, hence identical final conversation lists and
terminal text. -/
theorem session_rerun_deterministic
    (decode1 decode2 : String → Option Json) (clock1 clock2 : String)
    (model1 model2 : List ConvItem → Response) (fuel : Nat) (transcript : String)
    (hd : ∀ s, decode1 s = decode2 s) (hc : clock1 = clock2)
    (hm : ∀ conv, model1 conv = model2 conv) :
    runSession decode1 clock1 model1 fuel transcript
      = runSession decode2 clock2 model2 fuel transcript := by
  have hd2 : decode1 = decode2 := funext hd
  have hm2 : model1 = model2 := funext hm
  subst hd2
  subst hm2
  subst hc
  rfl

/-- C8 witness: the concrete stub session re-run against itself. -/
theorem session_rerun_deterministic_witness :
    runSession json_loads clockA stubModelA 3 ("hello")
      = runSession json_loads clockA stubModelA 3 ("hello") :=
  session_rerun_deterministic json_loads json_loads clockA clockA stubModelA stubModelA
    3 ("hello") (fun _ => rfl) rfl (fun _ => rfl)

/-- C9. An add_todo invocation returns None, so the ToolResult output
appended to the conversation is the JSON text null regardless of the
todo content; the todo itself is only appended to the todos.json
state, not echoed back. Both the function-call and the custom-tool-call
dispatch loops append exactly the output null. -/
theorem add_todo_result_is_null
    (decode : String → Option Json) (clock : String) (todos : List Json)
    (args : Json) (cid raw : String) (msgs : List ConvItem)
    (hdec : decode raw = some args) :
    call_tool clock todos ("add_todo") args = Except.ok (todos ++ [args], Json.null)
    ∧ json_dumps Json.null = "null"
    ∧ dispatchRound decode clock [OutputItem.functionCall cid ("add_todo") raw] todos msgs
        = Except.ok (todos ++ [args], msgs ++ [ConvItem.functionCallOutput cid ("null")])
    ∧ cfg_dispatchRound decode clock [OutputItem.customToolCall cid ("add_todo") raw] todos msgs
        = Except.ok (todos ++ [args], msgs ++ [ConvItem.functionCallOutput cid ("null")]) := by
  have hct : call_tool clock todos ("add_todo") args
      = Except.ok (todos ++ [args], Json.null) := by
    simp [call_tool]
  refine ⟨hct, rfl, ?_, ?_⟩
  · simp only [dispatchRound, hdec, hct]
    rfl
  · simp only [cfg_dispatchRound, hdec, hct]
    rfl

/-- C9 witness: a concrete add_todo call with a full todo object; the
appended output is the text null and the todo goes to the state. -/
theorem add_todo_result_is_null_witness :
    dispatchRound json_loads clockA
        [OutputItem.functionCall ("call_2") ("add_todo") rawTodoArgs] [] seedMsgs
      = Except.ok ([] ++ [todoArgs],
          seedMsgs ++ [ConvItem.functionCallOutput ("call_2") ("null")]) :=
  (add_todo_result_is_null json_loads clockA [] todoArgs ("call_2") rawTodoArgs seedMsgs
    (by rfl)).2.2.1

/-- C10. Within one session the getCalendarAvailability handler
returns an identical payload for every supplied range argument: it
requires the range key but ignores its value, always answering with
the session-precomputed slot list and the fixed timezone. -/
theorem calendar_availability_ignores_range
    (all_slots : List Json) (args1 args2 : Json) (r1 r2 : Json)
    (h1 : jsonGet args1 ("range") = some r1)
    (h2 : jsonGet args2 ("range") = some r2) :
    email_call_tool all_slots ("getCalendarAvailability") args1
      = email_call_tool all_slots ("getCalendarAvailability") args2
    ∧ email_call_tool all_slots ("getCalendarAvailability") args1
      = Except.ok (Json.obj [("slots", Json.arr all_slots), ("tz", Json.str emailTz)]) := by
  have e1 : email_call_tool all_slots ("getCalendarAvailability") args1
      = Except.ok (Json.obj [("slots", Json.arr all_slots), ("tz", Json.str emailTz)]) := by
    simp [email_call_tool, h1]
  have e2 : email_call_tool all_slots ("getCalendarAvailability") args2
      = Except.ok (Json.obj [("slots", Json.arr all_slots), ("tz", Json.str emailTz)]) := by
    simp [email_call_tool, h2]
  exact ⟨e1.trans e2.symm, e1⟩

/-- C10 witness: two concrete calls with different ranges receive the
identical payload. -/
theorem calendar_availability_ignores_range_witness :
    email_call_tool wSlots ("getCalendarAvailability") calArgs1
      = email_call_tool wSlots ("getCalendarAvailability") calArgs2
    ∧ email_call_tool wSlots ("getCalendarAvailability") calArgs1
      = Except.ok (Json.obj [("slots", Json.arr wSlots), ("tz", Json.str emailTz)]) :=
  calendar_availability_ignores_range wSlots calArgs1 calArgs2 calRange1 calRange2
    (by rfl) (by rfl)

end GptCfg
